import Mathlib

/-!
Shallow embedding of `cdk_workshop/pipeline_stack.py` (the `PipelineStack`
construct of the CDKServerless repository).

The Python code is a declarative assembly routine: it resolves an environment
tag and a settings bundle from the CDK context, builds a GitHub source binding,
a synthesis step, five code-quality steps, and registers one pipeline with one
deployment stage.  The embedding renders each constructed object as an
immutable descriptor record and the whole of `PipelineStack.__init__` as a
pure function `assemble : Config → Except AssemblyError PipelineDefinition`.
-/

namespace CDKServerless

/-- Descriptor of the GitHub source binding produced by
`CodePipelineSource.git_hub(repo_string=..., branch=..., authentication=...)`.
The credential is a named reference into the external secret store. -/
structure SourceDescriptor where
  repoString : String
  branch : String
  credentialReference : String
deriving Repr, DecidableEq

/-- Descriptor of a CodeBuild `BuildEnvironment(build_image, compute_type, privileged)`.
Image and compute tier are rendered by their enum-constant names. -/
structure BuildEnvironmentDescriptor where
  buildImage : String
  computeType : String
  privileged : Bool
deriving Repr, DecidableEq

/-- Descriptor of a pipeline step (`ShellStep` / `CodeBuildStep`): name, source
input, optional build environment and project name, environment-variable
mapping, ordered install commands and ordered run commands. -/
structure StepDescriptor where
  name : String
  input : SourceDescriptor
  buildEnvironment : Option BuildEnvironmentDescriptor := none
  projectName : Option String := none
  env : List (String × String) := []
  installCommands : List String := []
  commands : List String := []
deriving Repr, DecidableEq

/-- The `repository` part of a per-environment settings bundle. -/
structure RepositorySettings where
  name : String
  branch : String
deriving Repr, DecidableEq

/-- The `pipeline` part of a per-environment settings bundle. -/
structure PipelineSettings where
  name : String
deriving Repr, DecidableEq

/-- One per-environment settings bundle from the CDK context:
`context[tag] = \x7b"repository": ..., "pipeline": ...\x7d`. -/
structure EnvBundle where
  repository : RepositorySettings
  pipeline : PipelineSettings
deriving Repr, DecidableEq

/-- The external configuration visible through `self.node.try_get_context`:
the optional `environmentType` override (absent ↦ `none`; present with value
`s` ↦ `some s`) and the tag-keyed settings bundles. -/
structure Config where
  environmentType : Option String
  bundles : List (String × EnvBundle)
deriving Repr, DecidableEq

/-- Modelled from the spec: `DeployStage` lives in `cdk_workshop/deploy_stage.py`,
an external collaborator whose internal composition is out of scope; only its
constructor arguments `(construct_id, environment_type)` are recorded. -/
structure DeployStageDescriptor where
  constructId : String
  environment_type : String
deriving Repr, DecidableEq

/-- The assembled pipeline: name, the synthesis step, and the ordered stages,
each stage paired with its ordered `pre` steps (which the platform runs before
the stage's deployment). -/
structure PipelineDefinition where
  pipelineName : String
  synth : StepDescriptor
  stages : List (DeployStageDescriptor × List StepDescriptor)
deriving Repr, DecidableEq

/-- The ways assembly can fail.  `typeError` is Python's `TypeError` raised by
subscripting `None`; `configError` is an explicitly raised configuration
validation error (the Python code never raises one). -/
inductive AssemblyError where
  | typeError
  | configError
deriving Repr, DecidableEq

/-- `self.node.try_get_context("environmentType") or "qa"`: Python's `or`
falls back to `"qa"` whenever the lookup result is falsy, i.e. both when the
key is absent (`None`) and when it maps to the empty string. -/
def resolveEnvironmentType (cfg : Config) : String :=
  match cfg.environmentType with
  | none => "qa"
  | some s => if s = "" then "qa" else s

/-- `self.node.try_get_context(environment_type)`: plain keyed lookup of the
settings bundle, `none` when the tag has no bundle. -/
def lookupBundle (cfg : Config) (tag : String) : Option EnvBundle :=
  cfg.bundles.lookup tag

/-- `self.source_stage = Source.git_hub(...)`: repository name and branch come
from the resolved bundle, authentication is the Secrets Manager reference
`"github-token"`. -/
def sourceStage (ctx : EnvBundle) : SourceDescriptor :=
  { repoString := ctx.repository.name
    branch := ctx.repository.branch
    credentialReference := "github-token" }

/-- The `ShellStep("Synth", ...)` passed as `synth=` to `CodePipeline`. -/
def synthStep (src : SourceDescriptor) (environment_type : String) : StepDescriptor :=
  { name := "Synth"
    input := src
    env := [("ENV_TYPE", environment_type)]
    installCommands := [
      "npm install -g aws-cdk",
      "pip3 install -r requirements.txt",
      "pip3 install -r requirements-dev.txt",
      "ACCOUNT=$(aws sts get-caller-identity | jq -r .Account)"]
    commands := [
      "cdk synth -c account=$ACCOUNT -c environmentType=$ENV_TYPE"] }

/-- The `install_steps` list shared by the Linter, UnitTests, CfnNag and
DependencyAudit steps. -/
def install_steps : List String := [
  "npm install -g aws-cdk",
  "python3 -m venv .env",
  "chmod +x .env/bin/activate",
  ". .env/bin/activate",
  "pip3 install -r requirements.txt",
  "pip3 install -r requirements-dev.txt"]

/-- The single `BuildEnvironment` instance shared by all five quality-gate
steps: STANDARD_7_0 image, SMALL compute tier, privileged. -/
def qualityBuildEnvironment : BuildEnvironmentDescriptor :=
  { buildImage := "STANDARD_7_0"
    computeType := "SMALL"
    privileged := true }

/-- `PipelineStack.create_code_quality_steps`: the five `CodeBuildStep`s, in
source order, each taking `self.source_stage` as input and the shared
`environment`. -/
def create_code_quality_steps (src : SourceDescriptor) : List StepDescriptor :=
  [ { name := "GitSecrets"
      input := src
      buildEnvironment := some qualityBuildEnvironment
      projectName := some "cdk-pipelines-git-secrets"
      installCommands := [
        "SECRETS_FOLDER=git-secrets",
        "mkdir $SECRETS_FOLDER",
        "git clone --quiet https://github.com/awslabs/git-secrets.git $SECRETS_FOLDER",
        "cd $SECRETS_FOLDER",
        "make install",
        "cd .. && rm -rf $SECRETS_FOLDER"]
      commands := [
        "git secrets --register-aws",
        "git secrets --scan",
        "echo No vulnerabilities detected. Have a really nice day!"] },
    { name := "Linter"
      input := src
      buildEnvironment := some qualityBuildEnvironment
      projectName := some "cdk-pipelines-linter"
      installCommands := install_steps
      commands := [
        "python3 -m pylint cdk_workshop || true",
        "python3 -m pylint tests || true",
        "python3 -m pylint app.py || true"] },
    { name := "UnitTests"
      input := src
      buildEnvironment := some qualityBuildEnvironment
      projectName := some "cdk-pipelines-unit-tests"
      installCommands := install_steps
      commands := [
        "python3 -m pytest"] },
    { name := "CfnNag"
      input := src
      buildEnvironment := some qualityBuildEnvironment
      projectName := some "cdk-pipelines-cfn-nag"
      installCommands := install_steps ++ ["gem install cfn-nag"]
      commands := [
        "ACCOUNT=$(aws sts get-caller-identity | jq -r \x27.Account\x27)",
        "STACK_NAME=cdk-pipeline-scan",
        "cdk synth $STACK_NAME -c account=$ACCOUNT -c environmentType=$ENV_TYPE > template.yaml",
        "cfn_nag_scan --input-path template.yaml"] },
    { name := "DependencyAudit"
      input := src
      buildEnvironment := some qualityBuildEnvironment
      projectName := some "cdk-pipelines-audit"
      installCommands := install_steps
      commands := [
        "safety check -r requirements.txt",
        "safety check -r requirements-dev.txt"] } ]

/-- The whole of `PipelineStack.__init__` as a function of the configuration.
When the resolved tag has no bundle, `self.context` is `None` and the very
next access `self.context["repository"]["name"]` raises `TypeError` before the
pipeline is constructed — there is no explicit validation, so the only error
the code can produce is `typeError`.  On success the code registers exactly
one pipeline, whose one stage is `DeployStage(construct_id='QA',
environment_type="qa")` with the quality steps as `pre`. -/
def assemble (cfg : Config) : Except AssemblyError PipelineDefinition :=
  match lookupBundle cfg (resolveEnvironmentType cfg) with
  | none => .error .typeError
  | some ctx =>
      .ok { pipelineName := ctx.pipeline.name
            synth := synthStep (sourceStage ctx) (resolveEnvironmentType cfg)
            stages := [({ constructId := "QA", environment_type := "qa" },
                        create_code_quality_steps (sourceStage ctx))] }

/-- Execution order the platform derives from the definition: the synthesis
step first, then, for each stage in order, its `pre` steps (the stage's own
deployment follows its `pre` steps by the platform contract). -/
def pipelineStepSequence (p : PipelineDefinition) : List StepDescriptor :=
  p.synth :: (p.stages.map Prod.snd).flatten

/-- Order in which the platform executes one step's commands: every install
command before every run command. -/
def stepCommandSequence (s : StepDescriptor) : List String :=
  s.installCommands ++ s.commands

/-- A shell command is exit-code-tolerant when it is wrapped with a trailing
`|| true`, which forces a zero exit status: its last seven characters are the
characters of `|| true`. -/
def isExitTolerant (c : String) : Bool :=
  c.data.reverse.take 7 == ("|| true" : String).data.reverse

/-- A settings bundle has all three required fields non-empty. -/
def bundleWellFormed (b : EnvBundle) : Prop :=
  b.repository.name ≠ "" ∧ b.repository.branch ≠ "" ∧ b.pipeline.name ≠ ""

/-- Every bundle stored in the configuration is well-formed. -/
def configWellFormed (cfg : Config) : Prop :=
  ∀ pr ∈ cfg.bundles, bundleWellFormed pr.2

/-- The settings bundle of the worked example in the spec. -/
def qaBundle : EnvBundle :=
  { repository := { name := "acme/app", branch := "main" }
    pipeline := { name := "acme-qa" } }

/-- The worked example configuration: only a `"qa"` bundle, no override. -/
def cfgExample : Config :=
  { environmentType := none
    bundles := [("qa", qaBundle)] }

/-- The source binding the example configuration produces. -/
def srcExample : SourceDescriptor := sourceStage qaBundle

/-- The pipeline the example configuration assembles to. -/
def pipelineExample : PipelineDefinition :=
  { pipelineName := "acme-qa"
    synth := synthStep srcExample "qa"
    stages := [({ constructId := "QA", environment_type := "qa" },
                create_code_quality_steps srcExample)] }

/-- A bundle for a non-default environment tag. -/
def prodBundle : EnvBundle :=
  { repository := { name := "acme/app", branch := "release" }
    pipeline := { name := "acme-prod" } }

/-- A configuration whose resolved tag is `"prod"`, with a matching bundle. -/
def cfgProd : Config :=
  { environmentType := some "prod"
    bundles := [("prod", prodBundle)] }

/-- A configuration whose resolved tag (`"prod"`) has no settings bundle. -/
def cfgMissing : Config :=
  { environmentType := some "prod"
    bundles := [("qa", qaBundle)] }

/-- A bundle whose repository name is the empty string. -/
def emptyNameBundle : EnvBundle :=
  { repository := { name := "", branch := "main" }
    pipeline := { name := "acme-qa" } }

/-- A configuration storing a bundle with an empty repository name. -/
def cfgEmptyRepoName : Config :=
  { environmentType := none
    bundles := [("qa", emptyNameBundle)] }

/-- A configuration mapping the override key to the empty string. -/
def cfgEmptyOverride : Config :=
  { environmentType := some ""
    bundles := [("qa", qaBundle)] }

theorem mem_of_lookup_eq_some {α β : Type} [BEq α] [LawfulBEq α]
    {l : List (α × β)} {a : α} {b : β} (h : l.lookup a = some b) : (a, b) ∈ l := by
  induction l with
  | nil => simp [List.lookup] at h
  | cons hd tl ih =>
      rw [List.lookup] at h
      by_cases hk : a == hd.1
      · rw [hk] at h
        simp at h
        subst h
        have : a = hd.1 := eq_of_beq hk
        subst this
        exact List.mem_cons_self _ _
      · rw [Bool.of_not_eq_true hk] at h
        exact List.mem_cons_of_mem _ (ih h)

/-- C1 counterexample: with the resolved environment tag `"prod"` (and a
`"prod"` bundle present), the single deployment stage is nevertheless
constructed with `environment_type = "qa"`, which differs from the resolved
tag — the claim fails as stated. -/
theorem C1_deploy_env_counterexample :
    resolveEnvironmentType cfgProd = "prod" ∧
    (assemble cfgProd).toOption.map
        (fun p => p.stages.map (fun st => st.1.environment_type)) = some ["qa"] ∧
    ("qa" : String) ≠ "prod" := by
  refine ⟨rfl, rfl, by decide⟩

/-- C1 (amended): for every configuration whose resolved tag has a settings
bundle, the assembled pipeline contains exactly one synthesis step, it
precedes all five quality-gate steps in the execution order, and there is
exactly one deployment stage after them — but that stage is constructed with
`environment_type = "qa"` (a hardcoded literal), regardless of the resolved
environment tag. -/
theorem C1_pipeline_shape (cfg : Config) (p : PipelineDefinition)
    (h : assemble cfg = .ok p) :
    p.synth.name = "Synth" ∧
    ((pipelineStepSequence p).map StepDescriptor.name).head? = some "Synth" ∧
    ((pipelineStepSequence p).map StepDescriptor.name).tail =
      ["GitSecrets", "Linter", "UnitTests", "CfnNag", "DependencyAudit"] ∧
    ((pipelineStepSequence p).filter (fun s => s.name == "Synth")).length = 1 ∧
    p.stages.length = 1 ∧
    p.stages.map (fun st => st.1.environment_type) = ["qa"] := by
  cases hl : lookupBundle cfg (resolveEnvironmentType cfg) with
  | none => simp [assemble, hl] at h
  | some ctx =>
      simp [assemble, hl] at h
      subst h
      exact ⟨rfl, rfl, rfl, rfl, rfl, rfl⟩

/-- C1 witness: the amended pipeline-shape theorem instantiated at the worked
example configuration. -/
theorem C1_pipeline_shape_witness :
    pipelineExample.synth.name = "Synth" ∧
    ((pipelineStepSequence pipelineExample).map StepDescriptor.name).head? = some "Synth" ∧
    ((pipelineStepSequence pipelineExample).map StepDescriptor.name).tail =
      ["GitSecrets", "Linter", "UnitTests", "CfnNag", "DependencyAudit"] ∧
    ((pipelineStepSequence pipelineExample).filter (fun s => s.name == "Synth")).length = 1 ∧
    pipelineExample.stages.length = 1 ∧
    pipelineExample.stages.map (fun st => st.1.environment_type) = ["qa"] :=
  C1_pipeline_shape cfgExample pipelineExample rfl

/-- C2: `create_code_quality_steps` returns exactly five step descriptors, in
the fixed order GitSecrets, Linter, UnitTests, CfnNag, DependencyAudit, and
every one of the five takes the same source binding as its input. -/
theorem C2_quality_steps_order_and_input (src : SourceDescriptor) :
    (create_code_quality_steps src).length = 5 ∧
    (create_code_quality_steps src).map StepDescriptor.name =
      ["GitSecrets", "Linter", "UnitTests", "CfnNag", "DependencyAudit"] ∧
    (create_code_quality_steps src).map StepDescriptor.input =
      [src, src, src, src, src] := by
  exact ⟨rfl, rfl, rfl⟩

/-- C3: every run command of the Linter step is exit-code-tolerant (ends in
`|| true`), and no run command of any other step — Synth included — is: for
each step, the triple records its name, whether all of its run commands are
tolerant, and whether any is. -/
theorem C3_lint_only_exit_tolerant (src : SourceDescriptor) (environment_type : String) :
    (create_code_quality_steps src).map
        (fun s => (s.name, s.commands.all isExitTolerant, s.commands.any isExitTolerant)) =
      [("GitSecrets", false, false),
       ("Linter", true, true),
       ("UnitTests", false, false),
       ("CfnNag", false, false),
       ("DependencyAudit", false, false)] ∧
    (synthStep src environment_type).commands.any isExitTolerant = false := by
  exact ⟨rfl, rfl⟩

/-- C4 counterexample: for a configuration whose resolved tag has no bundle,
assembly fails with the incidental `TypeError` of subscripting `None`, not
with an explicitly validated configuration error. -/
theorem C4_incidental_error_counterexample :
    lookupBundle cfgMissing (resolveEnvironmentType cfgMissing) = none ∧
    assemble cfgMissing = .error AssemblyError.typeError ∧
    AssemblyError.typeError ≠ AssemblyError.configError := by
  refine ⟨rfl, rfl, by decide⟩

/-- C4 (amended): when the resolved environment tag has no settings bundle,
assembly does fail before any pipeline is produced — but through the
incidental `TypeError` raised by subscripting the `None` context, not through
an explicit configuration validation. -/
theorem C4_missing_bundle_fails (cfg : Config)
    (h : lookupBundle cfg (resolveEnvironmentType cfg) = none) :
    assemble cfg = .error AssemblyError.typeError ∧
    (assemble cfg).toOption = none := by
  unfold assemble
  rw [h]
  exact ⟨rfl, rfl⟩

/-- C4 witness: the amended failure theorem at the concrete configuration
whose resolved tag `"prod"` has no bundle. -/
theorem C4_missing_bundle_fails_witness :
    assemble cfgMissing = .error AssemblyError.typeError ∧
    (assemble cfgMissing).toOption = none :=
  C4_missing_bundle_fails cfgMissing rfl

/-- C5: with no `environmentType` override, the resolver yields the fallback
tag `"qa"`; on the worked example configuration it yields the `qa` bundle and
the assembled pipeline is named `"acme-qa"`. -/
theorem C5_default_tag_example :
    resolveEnvironmentType cfgExample = "qa" ∧
    lookupBundle cfgExample "qa" = some qaBundle ∧
    assemble cfgExample = .ok pipelineExample ∧
    pipelineExample.pipelineName = "acme-qa" := by
  exact ⟨rfl, rfl, rfl, rfl⟩

/-- C6: the synthesis step takes the source binding as input, declares
`ENV_TYPE` equal to the resolved environment tag, and its full command
sequence runs the four install commands — the account-identifier resolution
last among them — before the single build command, which is parameterized by
`$ACCOUNT` and `$ENV_TYPE`. -/
theorem C6_synth_step_shape (src : SourceDescriptor) (environment_type : String) :
    (synthStep src environment_type).input = src ∧
    (synthStep src environment_type).env = [("ENV_TYPE", environment_type)] ∧
    (synthStep src environment_type).commands =
      ["cdk synth -c account=$ACCOUNT -c environmentType=$ENV_TYPE"] ∧
    stepCommandSequence (synthStep src environment_type) =
      ["npm install -g aws-cdk",
       "pip3 install -r requirements.txt",
       "pip3 install -r requirements-dev.txt",
       "ACCOUNT=$(aws sts get-caller-identity | jq -r .Account)",
       "cdk synth -c account=$ACCOUNT -c environmentType=$ENV_TYPE"] := by
  exact ⟨rfl, rfl, rfl, rfl⟩

/-- C7: assembly is a pure function of its configuration input — identical
configurations produce structurally identical pipeline definitions. -/
theorem C7_assembly_pure (cfg₁ cfg₂ : Config) (h : cfg₁ = cfg₂) :
    assemble cfg₁ = assemble cfg₂ := by
  rw [h]

/-- C7 witness: purity instantiated at the worked example configuration. -/
theorem C7_assembly_pure_witness :
    assemble cfgExample = assemble cfgExample :=
  C7_assembly_pure cfgExample cfgExample rfl

/-- C8 counterexample: the resolver returns the stored bundle verbatim, with
no validation — for a configuration whose `"qa"` bundle stores an empty
repository name, the tag is present yet the returned bundle's
`repository.name` is empty. -/
theorem C8_empty_field_counterexample :
    lookupBundle cfgEmptyRepoName (resolveEnvironmentType cfgEmptyRepoName) =
      some emptyNameBundle ∧
    emptyNameBundle.repository.name = "" := by
  exact ⟨rfl, rfl⟩

/-- C8 (amended): the resolver performs no validation and returns whatever
bundle the configuration stores; the three fields are therefore non-empty
whenever every bundle stored in the configuration is well-formed. -/
theorem C8_lookup_wellformed (cfg : Config) (tag : String) (b : EnvBundle)
    (hw : configWellFormed cfg) (h : lookupBundle cfg tag = some b) :
    b.repository.name ≠ "" ∧ b.repository.branch ≠ "" ∧ b.pipeline.name ≠ "" :=
  hw (tag, b) (mem_of_lookup_eq_some h)

/-- C8 witness: the amended lookup theorem at the worked example
configuration, whose single stored bundle is well-formed. -/
theorem C8_lookup_wellformed_witness :
    qaBundle.repository.name ≠ "" ∧ qaBundle.repository.branch ≠ "" ∧
    qaBundle.pipeline.name ≠ "" :=
  C8_lookup_wellformed cfgExample "qa" qaBundle
    (by intro pr hpr; simp [cfgExample] at hpr; subst hpr
        exact ⟨by decide, by decide, by decide⟩) rfl

/-- C9: all five quality-gate steps carry the one shared build-environment
value — STANDARD_7_0 image, SMALL compute tier, privileged — and no
quality-gate step uses a different environment. -/
theorem C9_shared_build_environment (src : SourceDescriptor) :
    qualityBuildEnvironment =
      { buildImage := "STANDARD_7_0", computeType := "SMALL", privileged := true } ∧
    (create_code_quality_steps src).map StepDescriptor.buildEnvironment =
      [some qualityBuildEnvironment, some qualityBuildEnvironment,
       some qualityBuildEnvironment, some qualityBuildEnvironment,
       some qualityBuildEnvironment] := by
  exact ⟨rfl, rfl⟩

/-- C10: the `or "qa"` fallback applies to every falsy lookup result, so a
configuration mapping `environmentType` to the empty string still resolves to
`"qa"`. -/
theorem C10_falsy_override_defaults (cfg : Config)
    (h : cfg.environmentType = some "") :
    resolveEnvironmentType cfg = "qa" := by
  simp [resolveEnvironmentType, h]

/-- C10 witness: the falsy-default theorem at a concrete configuration whose
override is the empty string. -/
theorem C10_falsy_override_defaults_witness :
    resolveEnvironmentType cfgEmptyOverride = "qa" :=
  C10_falsy_override_defaults cfgEmptyOverride rfl

end CDKServerless
